import Mathlib

/-!
Verification of the cloudman service-lifecycle core: a shallow embedding of
`cm/services/apps/cloudgene.py` (`CloudgeneService`) and
`cm/services/data/transient_storage.py` (`TransientStorage`), together with
the small collaborator surface those two classes consume.  External effects
(shell execution, the NFS export table, the filesystem) are modelled as an
explicit environment / world record; each Python method becomes a Lean
function from the environment and the service record to the updated records,
returning in addition the list of shell commands it issued and whether a
Python exception escaped it.
-/

/-- The lifecycle states of `cm.services.service_states`, shared by every
service. -/
inductive SState where
  | UNSTARTED
  | WAITING_FOR_USER_ACTION
  | CONFIGURING
  | STARTING
  | RUNNING
  | SHUTTING_DOWN
  | SHUT_DOWN
  | ERROR
deriving DecidableEq, Repr

/-- The service roles referenced by the two embedded services
(`cm.services.ServiceRole`). -/
inductive ServiceRole where
  | CLOUDGENE
  | CLOUDERA_MANAGER
  | TRANSIENT_NFS
deriving DecidableEq, Repr

/-- Modelled from the spec: `Service._service_transitioning` lives in the base
class, which is not under `src/`.  Section 4.1 lists `UNSTARTED, STARTING,
SHUTTING_DOWN, SHUT_DOWN, WAITING_FOR_USER_ACTION` as the
transitioning/quiescent states during which status reconciliation performs no
observation; `_service_starting` (below) covers the `STARTING` member of the
family, this predicate the remaining four. -/
def service_transitioning (s : SState) : Prop :=
  s = SState.SHUTTING_DOWN ∨ s = SState.SHUT_DOWN ∨ s = SState.UNSTARTED ∨
    s = SState.WAITING_FOR_USER_ACTION

/-- Modelled from the spec: `Service._service_starting` is the `STARTING` part
of the quiescent family of §4.1 (see `service_transitioning`). -/
def service_starting (s : SState) : Prop :=
  s = SState.STARTING

instance (s : SState) : Decidable (service_transitioning s) := by
  unfold service_transitioning
  infer_instance

instance (s : SState) : Decidable (service_starting s) := by
  unfold service_starting
  infer_instance

/-- The five quiescent states of §4.1, as a list; this is exactly the
disjunction written out at the top of `CloudgeneService.status` and the union
of `service_transitioning` and `service_starting`. -/
def quiescentStates : List SState :=
  [SState.UNSTARTED, SState.STARTING, SState.SHUTTING_DOWN, SState.SHUT_DOWN,
   SState.WAITING_FOR_USER_ACTION]

/-- Environment of external capabilities consumed by `CloudgeneService`:
`misc.run` (shell command, success flag), `misc.getoutput` (shell command,
captured text — modelled from the spec contract `captureOutput(command) ->
text` of §6, a total query, since `cm/util/misc.py` is not under `src/`),
`os.path.exists`, and whether opening/extracting the downloaded tarball in
`_configure` succeeds (Python raises out of `tarfile` otherwise). -/
structure CgEnv where
  run : String → Bool
  getoutput : String → String
  path_exists : String → Bool
  tar_ok : Bool

/-- The `CloudgeneService` instance fields that the embedded methods read or
write.  `port` is fixed to 8085 in `__init__` and never touched again; it is
kept to state frame properties. -/
structure CloudgeneService where
  state : SState
  port : Nat
  svc_roles : List ServiceRole
  dependencies : List ServiceRole
deriving DecidableEq, Repr

/-- `self.cg_base_dir` from `CloudgeneService.__init__`. -/
def cg_base_dir : String := "/mnt/galaxy/cloudgene/"

/-- `self.cg_home = os.path.join(self.cg_base_dir, 'cloudgene-cloudman')`. -/
def cg_home : String := cg_base_dir ++ "cloudgene-cloudman"

/-- `self.cg_url` from `CloudgeneService.__init__`. -/
def cg_url : String :=
  "http://cloudgene.uibk.ac.at/downloads/cloudgene-cloudman.tar.gz"

/-- `paths.P_SU`: `cm/util/paths.py` is not under `src/`.  Modelled from the
spec: §6 only requires commands to be runnable "as a named system account";
the concrete prefix value is irrelevant to every claim, so it is fixed to
`su`. -/
def P_SU : String := "su"

/-- `'{0} - cloudgene -c "{1}"'.format(paths.P_SU, cmd)`, the wrapping used by
`__run_as_clougene_user` and inlined in `remove`. -/
def run_as_cloudgene (cmd : String) : String :=
  P_SU ++ " - cloudgene -c \"" ++ cmd ++ "\""

/-- A fresh `CloudgeneService` as built by `__init__`. -/
def CloudgeneService.init : CloudgeneService :=
  { state := SState.UNSTARTED
    port := 8085
    svc_roles := [ServiceRole.CLOUDGENE]
    dependencies := [ServiceRole.CLOUDERA_MANAGER] }

/-- `CloudgeneService._configure`: download the source, extract the archive,
make the control scripts executable, chown the tree, and prepare the HDFS
home folder.  Returns the shell commands issued in order and whether a Python
exception escaped (the `tarfile` extraction is the raising step; `misc.run`
failures are returned as `False`, not raised, so they do not abort the
sequence).  The method never writes `self.state`. -/
def CloudgeneService.configure (env : CgEnv) : List String × Bool :=
  let cg_source := cg_base_dir ++ "cg.tar.gz"
  let wgetCmd := "wget --output-document=\x27" ++ cg_source ++ "\x27 " ++ cg_url
  if !env.tar_ok then
    ([wgetCmd], true)
  else
    let chmodCmd := "cd " ++ cg_home ++ "; chmod +x start.sh state.sh stop.sh"
    let chownCmd := "chown -R -c cloudgene " ++ cg_base_dir
    let hdfsTest := "sudo -u hdfs hadoop fs -test -e /user/cloudgene"
    let hdfsMk :=
      if !env.run hdfsTest then ["sudo -u hdfs hadoop fs -mkdir /user/cloudgene"]
      else []
    let hdfsChown := "sudo -u hdfs hadoop fs -chown cloudgene /user/cloudgene"
    ([wgetCmd, chmodCmd, chownCmd, hdfsTest] ++ hdfsMk ++ [hdfsChown], false)

/-- The application start-script invocation
`"cd {0}; sh start.sh".format(self.cg_home)` wrapped to run as the
`cloudgene` user. -/
def cgStartCmd : String := run_as_cloudgene ("cd " ++ cg_home ++ "; sh start.sh")

/-- `CloudgeneService._start_server`: run `start.sh` as the `cloudgene` user;
on success set the state to `RUNNING`, otherwise leave it. -/
def CloudgeneService.start_server (env : CgEnv) (c : CloudgeneService) :
    CloudgeneService × List String :=
  if env.run cgStartCmd then ({ c with state := SState.RUNNING }, [cgStartCmd])
  else (c, [cgStartCmd])

/-- Result of a `CloudgeneService` lifecycle call: the updated service, the
shell commands issued, and whether a Python exception escaped the call (the
field mutations already performed stay in place when one does). -/
structure CgOut where
  svc : CloudgeneService
  cmds : List String
  exc : Bool
deriving DecidableEq, Repr

/-- `CloudgeneService.start`: set the state to `STARTING`, then `_configure`,
then `_start_server`.  There is no exception handler in the method, so an
exception from `_configure` escapes with the state left at `STARTING`. -/
def CloudgeneService.start (env : CgEnv) (c : CloudgeneService) : CgOut :=
  let c1 := { c with state := SState.STARTING }
  let conf := CloudgeneService.configure env
  if conf.2 then { svc := c1, cmds := conf.1, exc := true }
  else
    let srv := CloudgeneService.start_server env c1
    { svc := srv.1, cmds := conf.1 ++ srv.2, exc := false }

/-- The stop-script invocation
`'{0} - cloudgene -c "cd {1}; sh stop.sh"'.format(paths.P_SU, self.cg_base_dir)`
issued by `CloudgeneService.remove` (note the source uses `cg_base_dir` here,
not `cg_home`). -/
def cgStopCmd : String :=
  P_SU ++ " - cloudgene -c \"cd " ++ cg_base_dir ++ "; sh stop.sh\""

/-- `CloudgeneService.remove`: the base-class `remove` is not under `src/`
(modelled from the spec, §4.5: the removal step of the core is the stop
script; the super call performs no state change), then set the state to
`SHUTTING_DOWN`, run `stop.sh` as the `cloudgene` user and on success set
`SHUT_DOWN`. -/
def CloudgeneService.remove (env : CgEnv) (c : CloudgeneService) : CgOut :=
  let c1 := { c with state := SState.SHUTTING_DOWN }
  if env.run cgStopCmd then { svc := { c1 with state := SState.SHUT_DOWN }, cmds := [cgStopCmd], exc := false }
  else { svc := c1, cmds := [cgStopCmd], exc := false }

/-- The pattern `pat` occurs as a contiguous run somewhere in `s` (checked at
every suffix). -/
def hasSubstring (pat : List Char) : List Char → Bool
  | [] => pat.isEmpty
  | c :: rest => pat.isPrefixOf (c :: rest) || hasSubstring pat rest

/-- `'NOT running' in out`: Python substring containment over the character
sequences of the two strings. -/
def pyContains (out marker : String) : Prop :=
  hasSubstring marker.data out.data = true

instance (out marker : String) : Decidable (pyContains out marker) := by
  unfold pyContains
  infer_instance

/-- The probe command `"cd {0}; sh state.sh".format(self.cg_home)` issued by
`CloudgeneService.status`. -/
def cgProbeCmd : String := "cd " ++ cg_home ++ "; sh state.sh"

/-- `CloudgeneService.status`: in one of the five quiescent states, do
nothing; otherwise capture the output of `state.sh` and classify it.  In the
"NOT running" branch the source (line 99) reads
`self.state == service_states.ERROR` — an equality test whose result is
discarded — so the service is left unchanged there; in the remaining branch
the state is set to `RUNNING`. -/
def CloudgeneService.status (env : CgEnv) (c : CloudgeneService) :
    CloudgeneService :=
  if c.state = SState.UNSTARTED ∨ c.state = SState.STARTING ∨
     c.state = SState.SHUTTING_DOWN ∨ c.state = SState.SHUT_DOWN ∨
     c.state = SState.WAITING_FOR_USER_ACTION then
    c
  else if pyContains (env.getoutput cgProbeCmd) "NOT running" then
    c
  else
    { c with state := SState.RUNNING }

example :
    (CloudgeneService.status
      { run := fun _ => true, getoutput := fun _ => "server is NOT running!",
        path_exists := fun _ => true, tar_ok := true }
      { CloudgeneService.init with state := SState.RUNNING }).state =
    SState.RUNNING := by decide

example :
    (CloudgeneService.status
      { run := fun _ => true, getoutput := fun _ => "all good",
        path_exists := fun _ => true, tar_ok := true }
      { CloudgeneService.init with state := SState.ERROR }).state =
    SState.RUNNING := by decide

/-- The archive descriptor handed to `TransientStorage.__init__` as
`from_archive`: a dict with the keys `url` and `md5_sum` read in `add`. -/
structure Archive where
  url : String
  md5_sum : String
deriving DecidableEq, Repr

/-- The world of system facts and external tables `TransientStorage` reads and
writes: the set of existing filesystem paths (`os.path.exists`), the mount
points present in the NFS export table (`/etc/exports`), whether consulting
the export table raises (the probe-failure case of §4.4(c)), the success flag
of `misc.run` for a given shell command, the captured text of
`misc.getoutput` for a given shell command, and whether the NFS-export step
inside the share-and-set-state callback succeeds. -/
structure World where
  paths : List String
  exports : List String
  probeFails : Bool
  runOk : String → Bool
  output : String → String
  exportOk : Bool

/-- The `self.fs` object wrapped by `TransientStorage`: the fields its
embedded methods read or write. `size_data` holds the raw text of the last
size/usage query recorded by `Filesystem._update_size` (that method is not
under `src/`; modelled from the spec, §4.4: "refresh size/usage metrics via a
filesystem-usage query" — the metrics are the captured output of the query
command the caller passes in). -/
structure Filesystem where
  name : String
  mount_point : String
  state : SState
  persistent : Bool
  size_data : String
deriving DecidableEq, Repr

/-- The `TransientStorage` instance fields: the wrapped filesystem, the lazily
resolved `device`, the optional `from_archive` descriptor, and the cloud type
of the owning app (read in `add`). -/
structure TransientStorage where
  fs : Filesystem
  device : Option String
  from_archive : Option Archive
  cloud_type : String
deriving DecidableEq, Repr

/-- `NFSExport.find_mount_point_entry` (`cm/util/nfs_export.py` is not under
`src/`; modelled from the spec, §6: `findExport(path) -> position-or-absent`,
where the source compares the result against `-1`): the position of the mount
point's entry in the export table, `-1` when absent, raising when the query
itself fails. -/
def NFSExport.find_mount_point_entry (w : World) (mp : String) :
    Except String Int :=
  if w.probeFails then Except.error "error reading /etc/exports"
  else if mp ∈ w.exports then Except.ok (Int.ofNat (w.exports.indexOf mp))
  else Except.ok (-1)

/-- `Filesystem.nfs_share_and_set_state` (not under `src/`; modelled from the
spec, §4.4/§4.3: the finalize step "performs NFS export and sets state
`RUNNING`", "or to `ERROR` on failure"): add the mount point to the export
table and mark the service `RUNNING`, or mark it `ERROR` when the export step
fails. -/
def Filesystem.nfs_share_and_set_state (w : World) (fs : Filesystem) :
    World × Filesystem :=
  if w.exportOk then
    ({ w with exports := fs.mount_point :: w.exports },
     { fs with state := SState.RUNNING })
  else (w, { fs with state := SState.ERROR })

/-- `Filesystem.remove_nfs_share` (not under `src/`; modelled from the spec,
§4.4 `remove()`: "revoke the NFS export for the mount point"). -/
def Filesystem.remove_nfs_share (w : World) (fs : Filesystem) : World :=
  { w with exports := w.exports.erase fs.mount_point }

/-- The `mkfs.xfs {0}'.format(device)` command of
`_ensure_ephemeral_disk_mounted`, with the fixed default device. -/
def mkfsCmd : String := "mkfs.xfs /dev/xvdb"

/-- The `mount -o discard {0} /mnt` command of
`_ensure_ephemeral_disk_mounted`, with the fixed default device. -/
def mountCmd : String := "mount -o discard /dev/xvdb /mnt"

/-- `TransientStorage._ensure_ephemeral_disk_mounted`: probe whether `/mnt` is
a mount point; when it is not and the default device `/dev/xvdb` exists,
format it and mount it at `/mnt`; when the device is missing, only a warning
is logged.  Returns the shell commands issued. -/
def TransientStorage.ensure_ephemeral_disk_mounted (w : World) : List String :=
  let probe := "mountpoint -q /mnt"
  if !w.runOk probe then
    if "/dev/xvdb" ∈ w.paths then [probe, mkfsCmd, mountCmd]
    else [probe]
  else [probe]

/-- The `df %s | grep -v Filesystem | awk ...` command `add` uses to resolve
the backing device of a mount point. -/
def deviceQueryCmd (mp : String) : String :=
  "df " ++ mp ++ " | grep -v Filesystem | awk \x27\x7bprint $1\x7d\x27"

/-- The fixed `df --block-size 1 | grep /mnt$ | awk ...` size query of
`TransientStorage.status` (transient storage is special-cased to the `/mnt`
line of `df`). -/
def updateSizeCmd : String :=
  "df --block-size 1 | grep /mnt$ | awk \x27\x7bprint $2, $3, $5\x7d\x27"

/-- Result of a `TransientStorage` lifecycle call: the updated service, the
updated world (the export table may change), the shell commands issued, and
the `ExtractArchive` provisioning tasks dispatched to their own thread. -/
structure TsOut where
  ts : TransientStorage
  w : World
  cmds : List String
  dispatched : List Archive

/-- `TransientStorage.add`: on `transient_nfs`/`ec2` first make sure the
ephemeral disk is mounted; create the mount point directory
(`misc.make_dir`); resolve and record the backing `device` from the mount
table; then either dispatch an `ExtractArchive` provisioning task (after
marking the filesystem `persistent` and `CONFIGURING`) when `from_archive` is
set, or share over NFS and set the state synchronously. -/
def TransientStorage.add (w : World) (ts : TransientStorage) : TsOut :=
  let ephCmds :=
    if ts.fs.name = "transient_nfs" ∧ ts.cloud_type = "ec2" then
      TransientStorage.ensure_ephemeral_disk_mounted w
    else []
  let w1 := { w with paths := ts.fs.mount_point :: w.paths }
  let dev := w.output (deviceQueryCmd ts.fs.mount_point)
  match ts.from_archive with
  | some a =>
    let fs1 := { ts.fs with persistent := true, state := SState.CONFIGURING }
    { ts := { ts with fs := fs1, device := some dev }
      w := w1
      cmds := ephCmds ++ [deviceQueryCmd ts.fs.mount_point]
      dispatched := [a] }
  | none =>
    let shared := Filesystem.nfs_share_and_set_state w1 ts.fs
    { ts := { ts with fs := shared.2, device := some dev }
      w := shared.1
      cmds := ephCmds ++ [deviceQueryCmd ts.fs.mount_point]
      dispatched := [] }

/-- `TransientStorage.remove`: revoke the NFS share for the mount point and
set the state to `SHUT_DOWN` unconditionally. -/
def TransientStorage.remove (w : World) (ts : TransientStorage) : TsOut :=
  let w1 := Filesystem.remove_nfs_share w ts.fs
  { ts := { ts with fs := { ts.fs with state := SState.SHUT_DOWN } }
    w := w1
    cmds := []
    dispatched := [] }

/-- `TransientStorage.status`: skip when the service is transitioning or
starting; otherwise set `UNSTARTED` when the mount point directory is absent;
otherwise look the mount point up in the export table — found entries yield
`RUNNING` plus a size refresh from the fixed `/mnt` usage query, a missing
entry yields `ERROR`, and an exception from the lookup is caught and also
yields `ERROR`. -/
def TransientStorage.status (w : World) (ts : TransientStorage) :
    TransientStorage :=
  if service_transitioning ts.fs.state then ts
  else if service_starting ts.fs.state then ts
  else if ts.fs.mount_point ∉ w.paths then
    { ts with fs := { ts.fs with state := SState.UNSTARTED } }
  else
    match NFSExport.find_mount_point_entry w ts.fs.mount_point with
    | Except.ok n =>
      if n > -1 then
        let fs1 := { ts.fs with state := SState.RUNNING }
        { ts with fs := { fs1 with size_data := w.output updateSizeCmd } }
      else { ts with fs := { ts.fs with state := SState.ERROR } }
    | Except.error _ =>
      { ts with fs := { ts.fs with state := SState.ERROR } }

/-- A registered service as seen by the role registry: the roles it advertises
and its current state. -/
structure RegisteredService where
  svc_roles : List ServiceRole
  state : SState
deriving DecidableEq, Repr

/-- Modelled from the spec: the Dependency Resolver of §4.2 is not under
`src/` (only the `ServiceDependency` declaration in `__init__` is).  "the
dependency is satisfied only if at least one such service reports state
`RUNNING`": some registered service advertising the required role is
`RUNNING`. -/
def dependencySatisfied (reg : List RegisteredService) (role : ServiceRole) :
    Prop :=
  ∃ s ∈ reg, role ∈ s.svc_roles ∧ s.state = SState.RUNNING

instance (reg : List RegisteredService) (role : ServiceRole) :
    Decidable (dependencySatisfied reg role) := by
  unfold dependencySatisfied
  infer_instance

/-- Modelled from the spec: `canStart(service) -> bool` of §4.2 — every
declared dependency of the service is satisfied against the registry. -/
def canStart (reg : List RegisteredService) (deps : List ServiceRole) : Prop :=
  ∀ role ∈ deps, dependencySatisfied reg role

instance (reg : List RegisteredService) (deps : List ServiceRole) :
    Decidable (canStart reg deps) := by
  unfold canStart
  infer_instance

/-- Modelled from the spec: the orchestrator's dependency gate around
`start()` (§2 data flow "start() on a service → Dependency Resolver gate";
§4.2 "start() on a service with unsatisfied dependencies must fail fast
(service transitions to ERROR or remains UNSTARTED, depending on policy)").
When the gate fails, the service's own `start()` is never entered, so no
shell command is issued and the state is left as it was (the
"remains `UNSTARTED`" policy). -/
def gatedStart (reg : List RegisteredService) (env : CgEnv)
    (c : CloudgeneService) : CgOut :=
  if canStart reg c.dependencies then CloudgeneService.start env c
  else { svc := c, cmds := [], exc := false }

/-- A snapshot of the whole system for the asynchronous provisioning traces
of §4.3/§5: the world, the transient-storage service, whether a dispatched
`ExtractArchive` task is still in flight, and the milestones the task has
reached (checksum verified, archive extracted, completion callback run). -/
structure Sys where
  w : World
  ts : TransientStorage
  pending : Bool
  verified : Bool
  extracted : Bool
  callbackDone : Bool

/-- The events interleaved after `add` dispatches a provisioning task:
`poll` is the external reconciliation loop calling `status()`;
`taskFinish ok` is the `ExtractArchive` worker running to completion
(`cm/util/__init__.py` is not under `src/`; modelled from the spec, §4.3:
download, verify the checksum — on a mismatch abort, never extract, and
invoke the callback with a failure signal; on a match extract and invoke the
callback with success), with `ok` saying whether the downloaded bytes matched
`md5_sum`. -/
inductive Ev where
  | poll
  | taskFinish (checksumOk : Bool)

/-- One event of the system: a `poll` reconciles the service against the
current world; `taskFinish` retires a pending task, with the success path
running the `nfs_share_and_set_state` callback (export plus
`RUNNING`/`ERROR`) and the failure path marking `ERROR` without extracting or
exporting. -/
def Sys.step (s : Sys) : Ev → Sys
  | Ev.poll => { s with ts := TransientStorage.status s.w s.ts }
  | Ev.taskFinish ok =>
    if s.pending then
      if ok then
        let shared := Filesystem.nfs_share_and_set_state s.w s.ts.fs
        { w := shared.1, ts := { s.ts with fs := shared.2 }, pending := false, verified := true, extracted := true, callbackDone := true }
      else
        let fs1 := { s.ts.fs with state := SState.ERROR }
        { s with ts := { s.ts with fs := fs1 }, pending := false, callbackDone := true }
    else s

/-- Run a list of events left to right from a snapshot. -/
def runTrace (s : Sys) (evs : List Ev) : Sys :=
  evs.foldl Sys.step s

/-- The system snapshot right after `TransientStorage.add` returns: the task
it dispatched (if any) is pending and has reached no milestone yet. -/
def Sys.afterAdd (w : World) (ts : TransientStorage) : Sys :=
  let o := TransientStorage.add w ts
  { w := o.w, ts := o.ts, pending := !o.dispatched.isEmpty, verified := false, extracted := false, callbackDone := false }

/-- The legal transition table of §4.1, as a relation on states: each
lifecycle state's permitted successors, with `ERROR` and
`WAITING_FOR_USER_ACTION` absorbing except for the operator-triggered retry
to `UNSTARTED`. -/
def legalEdge : SState → SState → Bool
  | SState.UNSTARTED, SState.CONFIGURING => true
  | SState.UNSTARTED, SState.STARTING => true
  | SState.UNSTARTED, SState.ERROR => true
  | SState.CONFIGURING, SState.STARTING => true
  | SState.CONFIGURING, SState.ERROR => true
  | SState.STARTING, SState.RUNNING => true
  | SState.STARTING, SState.ERROR => true
  | SState.RUNNING, SState.SHUTTING_DOWN => true
  | SState.RUNNING, SState.ERROR => true
  | SState.SHUTTING_DOWN, SState.SHUT_DOWN => true
  | SState.SHUTTING_DOWN, SState.ERROR => true
  | SState.ERROR, SState.UNSTARTED => true
  | SState.WAITING_FOR_USER_ACTION, SState.UNSTARTED => true
  | _, _ => false

/-- A `CgEnv` with constant answers, for concrete evaluations. -/
def cgEnvOf (runOk : Bool) (out : String) (tar : Bool) : CgEnv :=
  { run := fun _ => runOk, getoutput := fun _ => out, path_exists := fun _ => true, tar_ok := tar }

/-- A `World` with constant shell answers, for concrete evaluations. -/
def worldOf (pathsL exportsL : List String) (probeF runB : Bool) (out : String) (expOk : Bool) : World :=
  { paths := pathsL, exports := exportsL, probeFails := probeF, runOk := fun _ => runB, output := fun _ => out, exportOk := expOk }

/-- A `TransientStorage` at the conventional mount point, for concrete
evaluations. -/
def tsOf (st : SState) (arch : Option Archive) : TransientStorage :=
  { fs := { name := "transient_nfs", mount_point := "/mnt/transient_nfs", state := st, persistent := false, size_data := "" }, device := none, from_archive := arch, cloud_type := "ec2" }

/-- C1: the claim fails on the code at this input, and the code contradicts
its own docstring ("Check and update the status") and the adjacent error log:
with the service in the non-quiescent state `RUNNING` and the liveness probe
reporting the recognized "not running" marker, `status()` leaves the state at
`RUNNING` instead of setting `ERROR`, because line 99 of
`cm/services/apps/cloudgene.py` reads `self.state == service_states.ERROR` —
an equality test whose result is discarded — where an assignment was
intended.  The first conjunct evaluates the embedded code at the failing
input; the last records that the probe output does contain the marker. -/
theorem C1_not_running_marker_leaves_state_unchanged :
    (CloudgeneService.status (cgEnvOf true "Cloudgene server is NOT running!" true)
      { CloudgeneService.init with state := SState.RUNNING }).state = SState.RUNNING ∧
    (CloudgeneService.status (cgEnvOf true "Cloudgene server is NOT running!" true)
      { CloudgeneService.init with state := SState.RUNNING }).state ≠ SState.ERROR ∧
    pyContains "Cloudgene server is NOT running!" "NOT running" := by
  refine ⟨by decide, by decide, by decide⟩

/-- C6: in each of the five quiescent states of §4.1 (`UNSTARTED, STARTING,
SHUTTING_DOWN, SHUT_DOWN, WAITING_FOR_USER_ACTION`), `status()` of either
service variant performs no observation and returns the service record
entirely unchanged (every field, not only `state`). -/
theorem C6_quiescent_status_is_noop :
    ∀ (env : CgEnv) (c : CloudgeneService) (w : World) (ts : TransientStorage),
    (c.state ∈ quiescentStates → CloudgeneService.status env c = c) ∧
    (ts.fs.state ∈ quiescentStates → TransientStorage.status w ts = ts) := by
  intro env c w ts
  constructor
  · intro h
    simp only [quiescentStates, List.mem_cons, List.mem_singleton, List.not_mem_nil, or_false] at h
    rcases h with h | h | h | h | h <;>
      simp [CloudgeneService.status, h]
  · intro h
    simp only [quiescentStates, List.mem_cons, List.mem_singleton, List.not_mem_nil, or_false] at h
    rcases h with h | h | h | h | h <;>
      simp [TransientStorage.status, service_transitioning, service_starting, h]

/-- C6 witness: the theorem applied to a service in `STARTING` and a
filesystem service in `SHUT_DOWN`. -/
theorem C6_quiescent_status_is_noop_witness :
    CloudgeneService.status (cgEnvOf true "x" true)
      { CloudgeneService.init with state := SState.STARTING } =
      { CloudgeneService.init with state := SState.STARTING } ∧
    TransientStorage.status (worldOf [] [] false true "" true)
      (tsOf SState.SHUT_DOWN none) = tsOf SState.SHUT_DOWN none :=
  ⟨(C6_quiescent_status_is_noop (cgEnvOf true "x" true)
      { CloudgeneService.init with state := SState.STARTING }
      (worldOf [] [] false true "" true) (tsOf SState.SHUT_DOWN none)).1 (by decide),
   (C6_quiescent_status_is_noop (cgEnvOf true "x" true)
      { CloudgeneService.init with state := SState.STARTING }
      (worldOf [] [] false true "" true) (tsOf SState.SHUT_DOWN none)).2 (by decide)⟩

/-- The format command differs from every device-resolution query (their
first characters differ). -/
lemma mkfsCmd_ne_deviceQueryCmd (mp : String) : mkfsCmd ≠ deviceQueryCmd mp := by
  intro h
  have h3 : some 'm' = some 'd' := congrArg (fun s => s.data.head?) h
  simp at h3

/-- The mount command differs from every device-resolution query (their first
characters differ). -/
lemma mountCmd_ne_deviceQueryCmd (mp : String) : mountCmd ≠ deviceQueryCmd mp := by
  intro h
  have h3 : some 'm' = some 'd' := congrArg (fun s => s.data.head?) h
  simp at h3

/-- The format/mount pair appears among the commands of
`_ensure_ephemeral_disk_mounted` exactly when `/mnt` is not already a mount
point and the default device exists. -/
lemma fmt_mount_mem_ensure_iff (w : World) :
    (mkfsCmd ∈ TransientStorage.ensure_ephemeral_disk_mounted w ∨
      mountCmd ∈ TransientStorage.ensure_ephemeral_disk_mounted w) ↔
    (w.runOk "mountpoint -q /mnt" = false ∧ "/dev/xvdb" ∈ w.paths) := by
  unfold TransientStorage.ensure_ephemeral_disk_mounted
  by_cases hrun : w.runOk "mountpoint -q /mnt" <;>
    by_cases hdev : "/dev/xvdb" ∈ w.paths <;>
      simp [hrun, hdev] <;> decide

/-- C10: `add()` issues the format-and-mount pair (`mkfs.xfs /dev/xvdb`,
`mount -o discard /dev/xvdb /mnt`) exactly when all four conditions hold: the
filesystem is named `transient_nfs`, the cloud type is `ec2`, `/mnt` is not
already a mount point (the `mountpoint -q /mnt` probe fails), and the default
device `/dev/xvdb` exists; in every other case no format or mount command is
issued (the missing-device case only logs a warning and `add` proceeds). -/
theorem C10_format_mount_iff_four_conditions :
    ∀ (w : World) (ts : TransientStorage),
    (mkfsCmd ∈ (TransientStorage.add w ts).cmds ∨
      mountCmd ∈ (TransientStorage.add w ts).cmds) ↔
    (ts.fs.name = "transient_nfs" ∧ ts.cloud_type = "ec2" ∧
      w.runOk "mountpoint -q /mnt" = false ∧ "/dev/xvdb" ∈ w.paths) := by
  intro w ts
  have hcmds : (TransientStorage.add w ts).cmds =
      (if ts.fs.name = "transient_nfs" ∧ ts.cloud_type = "ec2" then
        TransientStorage.ensure_ephemeral_disk_mounted w
      else []) ++ [deviceQueryCmd ts.fs.mount_point] := by
    unfold TransientStorage.add
    cases ts.from_archive <;> rfl
  rw [hcmds]
  by_cases hnc : ts.fs.name = "transient_nfs" ∧ ts.cloud_type = "ec2"
  · rw [if_pos hnc]
    simp only [List.mem_append, List.mem_singleton,
      mkfsCmd_ne_deviceQueryCmd ts.fs.mount_point,
      mountCmd_ne_deviceQueryCmd ts.fs.mount_point, or_false]
    rw [fmt_mount_mem_ensure_iff w]
    simp [hnc.1, hnc.2]
  · simp only [hnc, if_neg, not_false_iff, List.nil_append, List.mem_singleton]
    constructor
    · intro h
      rcases h with h | h
      · exact absurd h (mkfsCmd_ne_deviceQueryCmd ts.fs.mount_point)
      · exact absurd h (mountCmd_ne_deviceQueryCmd ts.fs.mount_point)
    · intro h
      exact absurd ⟨h.1, h.2.1⟩ hnc

/-- C5 counterexample: with the filesystem service in `RUNNING`, `remove()`
sets the state directly to `SHUT_DOWN`.  `RUNNING → SHUT_DOWN` is not an edge
of the §4.1 table, and the outcome is neither a no-op (`SHUT_DOWN ≠ RUNNING`)
nor `ERROR`, so the claim that every state change follows a legal edge is
false on the code at this input. -/
theorem C5_counterexample_remove_skips_shutting_down :
    (TransientStorage.remove (worldOf [] ["/mnt/transient_nfs"] false true "" true)
      (tsOf SState.RUNNING none)).ts.fs.state = SState.SHUT_DOWN ∧
    legalEdge SState.RUNNING SState.SHUT_DOWN = false ∧
    SState.SHUT_DOWN ≠ SState.RUNNING ∧
    SState.SHUT_DOWN ≠ SState.ERROR := by
  refine ⟨by decide, by decide, by decide, by decide⟩

/-- C5 amended: the state changes of the two cited operations do not stay
inside the §4.1 table.  `remove()` on the filesystem service sets the state
to `SHUT_DOWN` from every prior state — in particular it takes the illegal
`RUNNING → SHUT_DOWN` edge directly, skipping `SHUTTING_DOWN` — and the
application service's `status()` either leaves the state unchanged or sets it
to `RUNNING` — in particular it can take the illegal `ERROR → RUNNING` edge.
The post-states are confined to exactly these outcomes. -/
theorem C5_amended_actual_edges :
    ∀ (w : World) (ts : TransientStorage) (env : CgEnv) (c : CloudgeneService),
    (TransientStorage.remove w ts).ts.fs.state = SState.SHUT_DOWN ∧
    ((CloudgeneService.status env c).state = c.state ∨
      (CloudgeneService.status env c).state = SState.RUNNING) := by
  intro w ts env c
  refine ⟨rfl, ?_⟩
  unfold CloudgeneService.status
  split
  · exact Or.inl rfl
  · split
    · exact Or.inl rfl
    · exact Or.inr rfl

/-- C3: when no registered service advertising the required
`CLOUDERA_MANAGER` role is in state `RUNNING` at the time of the call, the
dependency-gated start of the Cloudgene service issues no shell command at
all — in particular the application's start script is never invoked — and a
service started from `UNSTARTED` stays `UNSTARTED` (so it ends in
`UNSTARTED` or `ERROR`, never `RUNNING`). -/
theorem C3_unsatisfied_dependency_blocks_start :
    ∀ (reg : List RegisteredService) (env : CgEnv) (c : CloudgeneService),
    c.dependencies = [ServiceRole.CLOUDERA_MANAGER] →
    (∀ s ∈ reg, ServiceRole.CLOUDERA_MANAGER ∈ s.svc_roles →
      s.state ≠ SState.RUNNING) →
    c.state = SState.UNSTARTED →
    (gatedStart reg env c).cmds = [] ∧
    cgStartCmd ∉ (gatedStart reg env c).cmds ∧
    ((gatedStart reg env c).svc.state = SState.UNSTARTED ∨
      (gatedStart reg env c).svc.state = SState.ERROR) := by
  intro reg env c hdeps hreg hstate
  have hns : ¬ canStart reg c.dependencies := by
    intro hcs
    have hdep := hcs ServiceRole.CLOUDERA_MANAGER (by rw [hdeps]; exact List.mem_singleton_self _)
    rcases hdep with ⟨s, hs, hrole, hrun⟩
    exact hreg s hs hrole hrun
  unfold gatedStart
  rw [if_neg hns]
  exact ⟨rfl, by simp, Or.inl hstate⟩

/-- C3 witness: the theorem applied to a registry whose only
`CLOUDERA_MANAGER` provider is still `STARTING` and a fresh `UNSTARTED`
Cloudgene service. -/
theorem C3_unsatisfied_dependency_blocks_start_witness :
    (gatedStart [{ svc_roles := [ServiceRole.CLOUDERA_MANAGER], state := SState.STARTING }]
      (cgEnvOf true "" true) CloudgeneService.init).cmds = [] ∧
    cgStartCmd ∉ (gatedStart [{ svc_roles := [ServiceRole.CLOUDERA_MANAGER], state := SState.STARTING }]
      (cgEnvOf true "" true) CloudgeneService.init).cmds ∧
    ((gatedStart [{ svc_roles := [ServiceRole.CLOUDERA_MANAGER], state := SState.STARTING }]
      (cgEnvOf true "" true) CloudgeneService.init).svc.state = SState.UNSTARTED ∨
      (gatedStart [{ svc_roles := [ServiceRole.CLOUDERA_MANAGER], state := SState.STARTING }]
      (cgEnvOf true "" true) CloudgeneService.init).svc.state = SState.ERROR) :=
  C3_unsatisfied_dependency_blocks_start
    [{ svc_roles := [ServiceRole.CLOUDERA_MANAGER], state := SState.STARTING }]
    (cgEnvOf true "" true) CloudgeneService.init rfl (by decide) rfl

/-- When the export-table lookup does not raise and the mount point is
exported, `find_mount_point_entry` answers its (non-negative) position. -/
lemma find_entry_present (w : World) (mp : String) (hpf : w.probeFails = false)
    (hexp : mp ∈ w.exports) :
    NFSExport.find_mount_point_entry w mp =
      Except.ok (Int.ofNat (w.exports.indexOf mp)) := by
  unfold NFSExport.find_mount_point_entry
  rw [hpf]
  simp [hexp]

/-- When the export-table lookup does not raise and the mount point is not
exported, `find_mount_point_entry` answers `-1`. -/
lemma find_entry_absent (w : World) (mp : String) (hpf : w.probeFails = false)
    (hexp : mp ∉ w.exports) :
    NFSExport.find_mount_point_entry w mp = Except.ok (-1) := by
  unfold NFSExport.find_mount_point_entry
  rw [hpf]
  simp [hexp]

/-- C4: for the filesystem service in a non-quiescent state, `status()` sets
the state from the observed facts exactly as claimed: an absent mount-point
directory yields `UNSTARTED`; a present directory whose mount point has an
export-table entry yields `RUNNING` and refreshes the size metrics from the
usage query (the fixed `/mnt`-scoped `df` command of the source); a present
directory with no export entry yields `ERROR`. -/
theorem C4_fs_status_reconciliation :
    ∀ (w : World) (ts : TransientStorage),
    ¬ service_transitioning ts.fs.state →
    ¬ service_starting ts.fs.state →
    (ts.fs.mount_point ∉ w.paths →
      (TransientStorage.status w ts).fs.state = SState.UNSTARTED) ∧
    (ts.fs.mount_point ∈ w.paths → w.probeFails = false →
      ts.fs.mount_point ∈ w.exports →
      (TransientStorage.status w ts).fs.state = SState.RUNNING ∧
      (TransientStorage.status w ts).fs.size_data = w.output updateSizeCmd) ∧
    (ts.fs.mount_point ∈ w.paths → w.probeFails = false →
      ts.fs.mount_point ∉ w.exports →
      (TransientStorage.status w ts).fs.state = SState.ERROR) := by
  intro w ts h1 h2
  refine ⟨?_, ?_, ?_⟩
  · intro hmp
    unfold TransientStorage.status
    rw [if_neg h1, if_neg h2, if_pos hmp]
  · intro hmp hpf hexp
    unfold TransientStorage.status
    rw [if_neg h1, if_neg h2, if_neg (not_not_intro hmp),
      find_entry_present w ts.fs.mount_point hpf hexp]
    have h0 : (0 : Int) ≤ Int.ofNat (w.exports.indexOf ts.fs.mount_point) :=
      Int.ofNat_nonneg (w.exports.indexOf ts.fs.mount_point)
    have hpos : (-1 : Int) < Int.ofNat (w.exports.indexOf ts.fs.mount_point) :=
      lt_of_lt_of_le (by norm_num) h0
    dsimp only
    rw [if_pos hpos]
    exact ⟨rfl, rfl⟩
  · intro hmp hpf hexp
    unfold TransientStorage.status
    rw [if_neg h1, if_neg h2, if_neg (not_not_intro hmp),
      find_entry_absent w ts.fs.mount_point hpf hexp]
    norm_num

/-- C4 witness: the theorem applied to a `RUNNING` service whose directory
exists and is exported (the `RUNNING`-plus-size-refresh arm), with the
hypotheses discharged concretely. -/
theorem C4_fs_status_reconciliation_witness :
    (TransientStorage.status
      (worldOf ["/mnt/transient_nfs"] ["/mnt/transient_nfs"] false true "7 3 42%" true)
      (tsOf SState.RUNNING none)).fs.state = SState.RUNNING ∧
    (TransientStorage.status
      (worldOf ["/mnt/transient_nfs"] ["/mnt/transient_nfs"] false true "7 3 42%" true)
      (tsOf SState.RUNNING none)).fs.size_data =
      (worldOf ["/mnt/transient_nfs"] ["/mnt/transient_nfs"] false true "7 3 42%" true).output
        updateSizeCmd :=
  (C4_fs_status_reconciliation
    (worldOf ["/mnt/transient_nfs"] ["/mnt/transient_nfs"] false true "7 3 42%" true)
    (tsOf SState.RUNNING none) (by decide) (by decide)).2.1 (by decide) rfl (by decide)

/-- C2 counterexample: the propagation policy does not hold across all three
operations.  At this input (every shell command fails; the tarball cannot be
opened) `remove()` ends with the service parked in the intermediate state
`SHUTTING_DOWN` — not `ERROR` — and `start()` lets the configuration
exception escape to the caller with the service parked in the intermediate
state `STARTING`. -/
theorem C2_counterexample_failures_not_converted :
    (CloudgeneService.remove (cgEnvOf false "" true)
      { CloudgeneService.init with state := SState.RUNNING }).svc.state =
      SState.SHUTTING_DOWN ∧
    (CloudgeneService.remove (cgEnvOf false "" true)
      { CloudgeneService.init with state := SState.RUNNING }).svc.state ≠
      SState.ERROR ∧
    (CloudgeneService.start (cgEnvOf true "" false)
      { CloudgeneService.init with state := SState.UNSTARTED }).exc = true ∧
    (CloudgeneService.start (cgEnvOf true "" false)
      { CloudgeneService.init with state := SState.UNSTARTED }).svc.state =
      SState.STARTING := by
  refine ⟨by decide, by decide, by decide, by decide⟩

/-- C2 amended: the conversion-to-`ERROR` boundary exists only in the
filesystem service's `status()` — a probe failure there is caught and yields
`ERROR`.  In the application service, a configuration failure inside
`start()` propagates to the caller as an exception with the state left at
`STARTING`; shell-command failures never raise (they are returned as flags),
but a failed stop command leaves `remove()` in `SHUTTING_DOWN` and a failed
start script leaves `start()` in `STARTING`, in neither case `ERROR`. -/
theorem C2_amended_failure_boundaries :
    ∀ (w : World) (ts : TransientStorage) (env : CgEnv) (c : CloudgeneService),
    (¬ service_transitioning ts.fs.state → ¬ service_starting ts.fs.state →
      ts.fs.mount_point ∈ w.paths → w.probeFails = true →
      (TransientStorage.status w ts).fs.state = SState.ERROR) ∧
    (env.tar_ok = false →
      (CloudgeneService.start env c).exc = true ∧
      (CloudgeneService.start env c).svc.state = SState.STARTING) ∧
    (env.tar_ok = true → (CloudgeneService.start env c).exc = false) ∧
    (env.run cgStopCmd = false →
      (CloudgeneService.remove env c).svc.state = SState.SHUTTING_DOWN ∧
      (CloudgeneService.remove env c).exc = false) ∧
    (env.run cgStartCmd = false → env.tar_ok = true →
      (CloudgeneService.start env c).svc.state = SState.STARTING ∧
      (CloudgeneService.start env c).exc = false) := by
  intro w ts env c
  refine ⟨?_, ?_, ?_, ?_, ?_⟩
  · intro h1 h2 hmp hpf
    unfold TransientStorage.status
    rw [if_neg h1, if_neg h2, if_neg (not_not_intro hmp)]
    unfold NFSExport.find_mount_point_entry
    rw [hpf]
    simp
  · intro htar
    simp [CloudgeneService.start, CloudgeneService.configure, htar]
  · intro htar
    simp [CloudgeneService.start, CloudgeneService.configure,
      CloudgeneService.start_server, htar]
  · intro hrun
    simp [CloudgeneService.remove, hrun]
  · intro hrun htar
    simp [CloudgeneService.start, CloudgeneService.configure,
      CloudgeneService.start_server, htar, hrun]

/-- C2 amended witness: an environment where the tarball fails to open and
every shell command fails, against a `RUNNING` filesystem service whose
export probe raises. -/
theorem C2_amended_failure_boundaries_witness :
    (TransientStorage.status (worldOf ["/mnt/transient_nfs"] [] true true "" true)
      (tsOf SState.RUNNING none)).fs.state = SState.ERROR ∧
    (CloudgeneService.start (cgEnvOf false "" false)
      { CloudgeneService.init with state := SState.RUNNING }).exc = true ∧
    (CloudgeneService.remove (cgEnvOf false "" false)
      { CloudgeneService.init with state := SState.RUNNING }).svc.state =
      SState.SHUTTING_DOWN :=
  ⟨(C2_amended_failure_boundaries (worldOf ["/mnt/transient_nfs"] [] true true "" true)
      (tsOf SState.RUNNING none) (cgEnvOf false "" false)
      { CloudgeneService.init with state := SState.RUNNING }).1
      (by decide) (by decide) (by decide) rfl,
   ((C2_amended_failure_boundaries (worldOf ["/mnt/transient_nfs"] [] true true "" true)
      (tsOf SState.RUNNING none) (cgEnvOf false "" false)
      { CloudgeneService.init with state := SState.RUNNING }).2.1 rfl).1,
   ((C2_amended_failure_boundaries (worldOf ["/mnt/transient_nfs"] [] true true "" true)
      (tsOf SState.RUNNING none) (cgEnvOf false "" false)
      { CloudgeneService.init with state := SState.RUNNING }).2.2.2.1 rfl).1⟩

/-- `status()` only rewrites the wrapped filesystem's `state` and `size_data`
fields; every other field of the service record is left alone. -/
lemma ts_status_shape (w : World) (ts : TransientStorage) :
    ∃ st sz, TransientStorage.status w ts =
      { ts with fs := { ts.fs with state := st, size_data := sz } } := by
  unfold TransientStorage.status
  split
  · exact ⟨ts.fs.state, ts.fs.size_data, rfl⟩
  · split
    · exact ⟨ts.fs.state, ts.fs.size_data, rfl⟩
    · split
      · exact ⟨SState.UNSTARTED, ts.fs.size_data, rfl⟩
      · split
        · split
          · exact ⟨SState.RUNNING, w.output updateSizeCmd, rfl⟩
          · exact ⟨SState.ERROR, ts.fs.size_data, rfl⟩
        · exact ⟨SState.ERROR, ts.fs.size_data, rfl⟩

/-- `status()` never changes the mount point. -/
lemma ts_status_mount_point (w : World) (ts : TransientStorage) :
    (TransientStorage.status w ts).fs.mount_point = ts.fs.mount_point := by
  obtain ⟨st, sz, h⟩ := ts_status_shape w ts
  rw [h]

/-- If a `status()` poll reports `RUNNING`, then either the service already
was `RUNNING` or its mount point has an entry in the export table (the only
branch of the reconciliation that assigns `RUNNING` is the found-entry
branch). -/
lemma ts_status_running_imp (w : World) (ts : TransientStorage)
    (h : (TransientStorage.status w ts).fs.state = SState.RUNNING) :
    ts.fs.state = SState.RUNNING ∨ ts.fs.mount_point ∈ w.exports := by
  by_cases hexp : ts.fs.mount_point ∈ w.exports
  · exact Or.inr hexp
  · left
    unfold TransientStorage.status at h
    by_cases h1 : service_transitioning ts.fs.state
    · rwa [if_pos h1] at h
    by_cases h2 : service_starting ts.fs.state
    · rwa [if_neg h1, if_pos h2] at h
    by_cases h3 : ts.fs.mount_point ∉ w.paths
    · rw [if_neg h1, if_neg h2, if_pos h3] at h
      simp at h
    · rw [if_neg h1, if_neg h2, if_neg h3] at h
      by_cases hpf : w.probeFails = true
      · have hfind : NFSExport.find_mount_point_entry w ts.fs.mount_point =
            Except.error "error reading /etc/exports" := by
          unfold NFSExport.find_mount_point_entry
          rw [hpf]
          simp
        rw [hfind] at h
        simp at h
      · have hpf' : w.probeFails = false := by simpa using hpf
        rw [find_entry_absent w ts.fs.mount_point hpf' hexp] at h
        simp at h

/-- The invariant carried along every event trace after an archive-seeded
`add`: if the service is observed `RUNNING`, or its mount point has appeared
in the export table, then the provisioning task has verified the checksum,
completed extraction and run its completion callback. -/
def provInv (s : Sys) : Prop :=
  (s.ts.fs.state = SState.RUNNING →
    s.verified = true ∧ s.extracted = true ∧ s.callbackDone = true) ∧
  (s.ts.fs.mount_point ∈ s.w.exports →
    s.verified = true ∧ s.extracted = true ∧ s.callbackDone = true)

/-- One step of any event preserves the provisioning invariant. -/
lemma step_preserves_provInv (s : Sys) (ev : Ev) (h : provInv s) :
    provInv (Sys.step s ev) := by
  cases ev with
  | poll =>
    dsimp only [Sys.step]
    refine ⟨?_, ?_⟩
    · intro hrun
      have hr := ts_status_running_imp s.w s.ts hrun
      rcases hr with hr | hr
      · exact h.1 hr
      · exact h.2 hr
    · intro hexp
      have hmp := ts_status_mount_point s.w s.ts
      exact h.2 (by rwa [hmp] at hexp)
  | taskFinish ok =>
    show provInv (Sys.step s (Ev.taskFinish ok))
    unfold Sys.step
    cases hp : s.pending with
    | false =>
      simp only [hp, if_false, Bool.false_eq_true]
      exact h
    | true =>
      cases ok with
      | true =>
        simp only [hp, if_true]
        exact ⟨fun _ => ⟨rfl, rfl, rfl⟩, fun _ => ⟨rfl, rfl, rfl⟩⟩
      | false =>
        simp only [hp, if_true, if_false, Bool.false_eq_true]
        refine ⟨?_, ?_⟩
        · intro h'
          simp at h'
        · intro hexp
          rcases h.2 hexp with ⟨hv, he, _⟩
          exact ⟨hv, he, rfl⟩

/-- Every event trace preserves the provisioning invariant. -/
lemma runTrace_preserves_provInv :
    ∀ (evs : List Ev) (s : Sys), provInv s → provInv (runTrace s evs) := by
  intro evs
  induction evs with
  | nil => exact fun s h => h
  | cons e rest ih => exact fun s h => ih (Sys.step s e) (step_preserves_provInv s e h)

/-- C7: an archive-seeded `add()` marks the filesystem persistent and puts it
into `CONFIGURING` (never `RUNNING`) before the only dispatch of the
provisioning task; and along every interleaving of `status()` polls and task
completion after that `add` (starting from a world where the mount point is
not yet exported), the service is observed `RUNNING` only after the task has
verified the checksum, completed extraction and run its completion callback —
which alone performs the NFS export and sets `RUNNING` (or `ERROR`). -/
theorem C7_archive_add_configures_before_dispatch :
    ∀ (w : World) (ts : TransientStorage) (a : Archive),
    ts.from_archive = some a →
    ts.fs.mount_point ∉ w.exports →
    ((TransientStorage.add w ts).ts.fs.persistent = true ∧
     (TransientStorage.add w ts).ts.fs.state = SState.CONFIGURING ∧
     (TransientStorage.add w ts).ts.fs.state ≠ SState.RUNNING ∧
     (TransientStorage.add w ts).dispatched = [a]) ∧
    ∀ evs : List Ev,
      (runTrace (Sys.afterAdd w ts) evs).ts.fs.state = SState.RUNNING →
      (runTrace (Sys.afterAdd w ts) evs).verified = true ∧
      (runTrace (Sys.afterAdd w ts) evs).extracted = true ∧
      (runTrace (Sys.afterAdd w ts) evs).callbackDone = true := by
  intro w ts a harch hexp
  constructor
  · unfold TransientStorage.add
    rw [harch]
    refine ⟨rfl, rfl, ?_, rfl⟩
    intro hc
    simp at hc
  · have hinv0 : provInv (Sys.afterAdd w ts) := by
      unfold Sys.afterAdd TransientStorage.add
      rw [harch]
      refine ⟨?_, ?_⟩
      · intro hr
        simp at hr
      · intro hm
        exact absurd hm hexp
    intro evs hrun
    exact (runTrace_preserves_provInv evs (Sys.afterAdd w ts) hinv0).1 hrun

/-- C7 witness: a concrete archive-seeded `add` followed by the successful
task completion; the service is then `RUNNING` and the theorem yields the
three milestones. -/
theorem C7_archive_add_configures_before_dispatch_witness :
    (TransientStorage.add (worldOf [] [] false true "" true)
      (tsOf SState.UNSTARTED (some { url := "http://a/fs.tgz", md5_sum := "d41d8" }))).ts.fs.state =
      SState.CONFIGURING ∧
    (runTrace (Sys.afterAdd (worldOf [] [] false true "" true)
        (tsOf SState.UNSTARTED (some { url := "http://a/fs.tgz", md5_sum := "d41d8" })))
      [Ev.taskFinish true]).verified = true :=
  ⟨(C7_archive_add_configures_before_dispatch (worldOf [] [] false true "" true)
      (tsOf SState.UNSTARTED (some { url := "http://a/fs.tgz", md5_sum := "d41d8" }))
      { url := "http://a/fs.tgz", md5_sum := "d41d8" } rfl (by decide)).1.2.1,
   ((C7_archive_add_configures_before_dispatch (worldOf [] [] false true "" true)
      (tsOf SState.UNSTARTED (some { url := "http://a/fs.tgz", md5_sum := "d41d8" }))
      { url := "http://a/fs.tgz", md5_sum := "d41d8" } rfl (by decide)).2
      [Ev.taskFinish true] (by decide)).1⟩

/-- In a quiescent state, the filesystem `status()` is the identity. -/
lemma ts_status_quiescent_eq (w : World) (ts : TransientStorage)
    (h : service_transitioning ts.fs.state ∨ service_starting ts.fs.state) :
    TransientStorage.status w ts = ts := by
  unfold TransientStorage.status
  by_cases h1 : service_transitioning ts.fs.state
  · rw [if_pos h1]
  · rcases h with h | h
    · exact absurd h h1
    · rw [if_neg h1, if_pos h]

/-- Non-quiescent, mount-point directory absent: `status()` yields
`UNSTARTED`. -/
lemma ts_status_absent_eq (w : World) (ts : TransientStorage)
    (h1 : ¬ service_transitioning ts.fs.state)
    (h2 : ¬ service_starting ts.fs.state)
    (h3 : ts.fs.mount_point ∉ w.paths) :
    TransientStorage.status w ts =
      { ts with fs := { ts.fs with state := SState.UNSTARTED } } := by
  unfold TransientStorage.status
  rw [if_neg h1, if_neg h2, if_pos h3]

/-- Non-quiescent, directory present, export probe raising: `status()`
catches the exception and yields `ERROR`. -/
lemma ts_status_probe_error_eq (w : World) (ts : TransientStorage)
    (h1 : ¬ service_transitioning ts.fs.state)
    (h2 : ¬ service_starting ts.fs.state)
    (h3 : ts.fs.mount_point ∈ w.paths)
    (hpf : w.probeFails = true) :
    TransientStorage.status w ts =
      { ts with fs := { ts.fs with state := SState.ERROR } } := by
  unfold TransientStorage.status
  rw [if_neg h1, if_neg h2, if_neg (not_not_intro h3)]
  have hfind : NFSExport.find_mount_point_entry w ts.fs.mount_point =
      Except.error "error reading /etc/exports" := by
    unfold NFSExport.find_mount_point_entry
    rw [hpf]
    simp
  rw [hfind]

/-- Non-quiescent, directory present, probe sound, entry present: `status()`
yields `RUNNING` and refreshes the size data from the usage query. -/
lemma ts_status_running_eq (w : World) (ts : TransientStorage)
    (h1 : ¬ service_transitioning ts.fs.state)
    (h2 : ¬ service_starting ts.fs.state)
    (h3 : ts.fs.mount_point ∈ w.paths)
    (hpf : w.probeFails = false)
    (hexp : ts.fs.mount_point ∈ w.exports) :
    TransientStorage.status w ts =
      { ts with fs := { name := ts.fs.name, mount_point := ts.fs.mount_point, state := SState.RUNNING, persistent := ts.fs.persistent, size_data := w.output updateSizeCmd } } := by
  unfold TransientStorage.status
  rw [if_neg h1, if_neg h2, if_neg (not_not_intro h3),
    find_entry_present w ts.fs.mount_point hpf hexp]
  have h0 : (0 : Int) ≤ Int.ofNat (w.exports.indexOf ts.fs.mount_point) :=
    Int.ofNat_nonneg (w.exports.indexOf ts.fs.mount_point)
  have hpos : (-1 : Int) < Int.ofNat (w.exports.indexOf ts.fs.mount_point) :=
    lt_of_lt_of_le (by norm_num) h0
  dsimp only
  rw [if_pos hpos]

/-- Non-quiescent, directory present, probe sound, entry absent: `status()`
yields `ERROR`. -/
lemma ts_status_noexport_eq (w : World) (ts : TransientStorage)
    (h1 : ¬ service_transitioning ts.fs.state)
    (h2 : ¬ service_starting ts.fs.state)
    (h3 : ts.fs.mount_point ∈ w.paths)
    (hpf : w.probeFails = false)
    (hexp : ts.fs.mount_point ∉ w.exports) :
    TransientStorage.status w ts =
      { ts with fs := { ts.fs with state := SState.ERROR } } := by
  unfold TransientStorage.status
  rw [if_neg h1, if_neg h2, if_neg (not_not_intro h3),
    find_entry_absent w ts.fs.mount_point hpf hexp]
  dsimp only
  rw [if_neg (by norm_num : ¬ ((-1 : Int) > -1))]

/-- The filesystem `status()` is idempotent over a fixed world. -/
lemma ts_status_idem (w : World) (ts : TransientStorage) :
    TransientStorage.status w (TransientStorage.status w ts) =
      TransientStorage.status w ts := by
  by_cases hq : service_transitioning ts.fs.state ∨ service_starting ts.fs.state
  · rw [ts_status_quiescent_eq w ts hq]
    exact ts_status_quiescent_eq w ts hq
  · have h1 : ¬ service_transitioning ts.fs.state := fun h => hq (Or.inl h)
    have h2 : ¬ service_starting ts.fs.state := fun h => hq (Or.inr h)
    by_cases h3 : ts.fs.mount_point ∈ w.paths
    swap
    · rw [ts_status_absent_eq w ts h1 h2 h3]
      exact ts_status_quiescent_eq w _ (Or.inl (by simp [service_transitioning]))
    by_cases hpf : w.probeFails = true
    · rw [ts_status_probe_error_eq w ts h1 h2 h3 hpf]
      exact ts_status_probe_error_eq w _ (by simp [service_transitioning])
        (by simp [service_starting]) h3 hpf
    · have hpf' : w.probeFails = false := by simpa using hpf
      by_cases hexp : ts.fs.mount_point ∈ w.exports
      · rw [ts_status_running_eq w ts h1 h2 h3 hpf' hexp]
        exact ts_status_running_eq w _ (by simp [service_transitioning])
          (by simp [service_starting]) h3 hpf' hexp
      · rw [ts_status_noexport_eq w ts h1 h2 h3 hpf' hexp]
        exact ts_status_noexport_eq w _ (by simp [service_transitioning])
          (by simp [service_starting]) h3 hpf' hexp

/-- In a quiescent state, the application `status()` is the identity. -/
lemma cg_status_quiescent_eq (env : CgEnv) (c : CloudgeneService)
    (h : c.state = SState.UNSTARTED ∨ c.state = SState.STARTING ∨
      c.state = SState.SHUTTING_DOWN ∨ c.state = SState.SHUT_DOWN ∨
      c.state = SState.WAITING_FOR_USER_ACTION) :
    CloudgeneService.status env c = c := by
  unfold CloudgeneService.status
  rw [if_pos h]

/-- Non-quiescent with the probe output containing the marker: the source's
discarded comparison leaves the service unchanged. -/
lemma cg_status_marker_eq (env : CgEnv) (c : CloudgeneService)
    (h : ¬ (c.state = SState.UNSTARTED ∨ c.state = SState.STARTING ∨
      c.state = SState.SHUTTING_DOWN ∨ c.state = SState.SHUT_DOWN ∨
      c.state = SState.WAITING_FOR_USER_ACTION))
    (hm : pyContains (env.getoutput cgProbeCmd) "NOT running") :
    CloudgeneService.status env c = c := by
  unfold CloudgeneService.status
  rw [if_neg h, if_pos hm]

/-- Non-quiescent without the marker: `status()` sets `RUNNING`. -/
lemma cg_status_running_eq (env : CgEnv) (c : CloudgeneService)
    (h : ¬ (c.state = SState.UNSTARTED ∨ c.state = SState.STARTING ∨
      c.state = SState.SHUTTING_DOWN ∨ c.state = SState.SHUT_DOWN ∨
      c.state = SState.WAITING_FOR_USER_ACTION))
    (hm : ¬ pyContains (env.getoutput cgProbeCmd) "NOT running") :
    CloudgeneService.status env c = { c with state := SState.RUNNING } := by
  unfold CloudgeneService.status
  rw [if_neg h, if_neg hm]

/-- The application `status()` is idempotent over a fixed probe output. -/
lemma cg_status_idem (env : CgEnv) (c : CloudgeneService) :
    CloudgeneService.status env (CloudgeneService.status env c) =
      CloudgeneService.status env c := by
  by_cases hq : c.state = SState.UNSTARTED ∨ c.state = SState.STARTING ∨
      c.state = SState.SHUTTING_DOWN ∨ c.state = SState.SHUT_DOWN ∨
      c.state = SState.WAITING_FOR_USER_ACTION
  · rw [cg_status_quiescent_eq env c hq]
    exact cg_status_quiescent_eq env c hq
  · by_cases hm : pyContains (env.getoutput cgProbeCmd) "NOT running"
    · rw [cg_status_marker_eq env c hq hm]
      exact cg_status_marker_eq env c hq hm
    · rw [cg_status_running_eq env c hq hm]
      exact cg_status_running_eq env _ (by simp) hm

/-- The application `status()` only rewrites the `state` field. -/
lemma cg_status_shape (env : CgEnv) (c : CloudgeneService) :
    ∃ st, CloudgeneService.status env c = { c with state := st } := by
  unfold CloudgeneService.status
  split
  · exact ⟨c.state, rfl⟩
  · split
    · exact ⟨c.state, rfl⟩
    · exact ⟨SState.RUNNING, rfl⟩

/-- C8: `status()` of either service variant is a total function of the
observed facts — in the embedding no exception channel even exists for it,
mirroring the `try/except` boundary of the filesystem variant (and the
raise-free probe contract of §6 for the application variant) — and it mutates
nothing but the service's own `state` field (plus, for the filesystem
variant, the size metrics): every other field is returned unchanged.  An
exception from the export-table query is caught and yields `ERROR`. -/
theorem C8_status_total_and_frame :
    ∀ (w : World) (ts : TransientStorage) (env : CgEnv) (c : CloudgeneService),
    (∃ st sz, TransientStorage.status w ts =
      { ts with fs := { ts.fs with state := st, size_data := sz } }) ∧
    (∃ st, CloudgeneService.status env c = { c with state := st }) ∧
    (¬ service_transitioning ts.fs.state → ¬ service_starting ts.fs.state →
      ts.fs.mount_point ∈ w.paths → w.probeFails = true →
      (TransientStorage.status w ts).fs.state = SState.ERROR) := by
  intro w ts env c
  refine ⟨ts_status_shape w ts, cg_status_shape env c, ?_⟩
  intro h1 h2 hmp hpf
  rw [ts_status_probe_error_eq w ts h1 h2 hmp hpf]

/-- C8 witness: a raising export probe against a `RUNNING` service yields
`ERROR`, via the theorem with its hypotheses discharged concretely. -/
theorem C8_status_total_and_frame_witness :
    (TransientStorage.status (worldOf ["/mnt/transient_nfs"] ["/mnt/transient_nfs"] true true "" true)
      (tsOf SState.RUNNING none)).fs.state = SState.ERROR :=
  (C8_status_total_and_frame
    (worldOf ["/mnt/transient_nfs"] ["/mnt/transient_nfs"] true true "" true)
    (tsOf SState.RUNNING none) (cgEnvOf true "" true) CloudgeneService.init).2.2
    (by decide) (by decide) (by decide) rfl

/-- C9: over a fixed valuation of the system facts, `status()` of either
service variant is idempotent — the second call returns exactly the record
the first produced — and a `status()` poll of the provisioning system never
dispatches or retires a provisioning task and never touches the world (the
export table in particular), so repeated polls never re-trigger
provisioning. -/
theorem C9_status_idempotent_no_dispatch :
    ∀ (w : World) (ts : TransientStorage) (env : CgEnv) (c : CloudgeneService)
      (s : Sys),
    TransientStorage.status w (TransientStorage.status w ts) =
      TransientStorage.status w ts ∧
    CloudgeneService.status env (CloudgeneService.status env c) =
      CloudgeneService.status env c ∧
    Sys.step (Sys.step s Ev.poll) Ev.poll = Sys.step s Ev.poll ∧
    (Sys.step s Ev.poll).pending = s.pending ∧
    (Sys.step s Ev.poll).callbackDone = s.callbackDone ∧
    (Sys.step s Ev.poll).w = s.w := by
  intro w ts env c s
  refine ⟨ts_status_idem w ts, cg_status_idem env c, ?_, rfl, rfl, rfl⟩
  show ({ s with ts := TransientStorage.status s.w s.ts } : Sys).step Ev.poll =
    { s with ts := TransientStorage.status s.w s.ts }
  dsimp only [Sys.step]
  rw [ts_status_idem s.w s.ts]
